import Mathlib

/-!
# Tailscale auth backend for Vault: login and policy derivation

A shallow embedding of `backend.go` (package `mock`): `Factory`, `newBackend`,
`pathLogin`, `handleLogin` and `buildPolicies`, together with the fragments of the
Go standard library, the Vault SDK and the Tailscale client they use.

Conventions of the embedding

* A Go `string` is a Lean `String`; `len`, slicing and comparison act on its
  character list (`String.data`).  The only literals the code slices by are ASCII.
* A Go pointer, map or slice field whose nil-ness the code can set is an `Option`:
  `none` is `nil`, `some []` is a non-nil empty map or slice.  A map is the list of
  its entries.
* A Go function returning `(T, error)` returns a pair of `Option`s, so that "the
  value is nil whenever the error is not" is a statement and not a typing fact.
* `int` and `time.Duration` are `Int`; no arithmetic in the file can overflow
  (`2 * time.Minute` is a compile-time constant below `2^63`).
* Calls that leave the process (`LocalClient.WhoIs`, `Backend.Setup`) append to an
  explicit call log that is threaded through the caller.
-/

namespace TailscaleAuth

/-! ## Go standard library -/

/-- Go `strings.HasPrefix`: `len(s) >= len(prefix) && s[:len(prefix)] == prefix`. -/
def HasPrefix (s pre : String) : Bool :=
  decide (pre.data.length ≤ s.data.length) && (s.data.take pre.data.length == pre.data)

/-- Go `strings.TrimPrefix`: `if HasPrefix(s, prefix) { return s[len(prefix):] }; return s`. -/
def TrimPrefix (s pre : String) : String :=
  if HasPrefix s pre then String.mk (s.data.drop pre.data.length) else s

/-- Decimal digits of a natural number, most significant first. -/
def formatDecimal (n : Nat) : String :=
  String.mk (Nat.toDigits 10 n)

/-- Go `strconv.Itoa`: base-10 text of an `int`, with a leading `-` when negative. -/
def Itoa (i : Int) : String :=
  match i with
  | Int.ofNat n => formatDecimal n
  | Int.negSucc n => "-" ++ formatDecimal (n + 1)

/-- Go `net.JoinHostPort`: a host that contains a colon is taken to be an IPv6
literal and is bracketed. -/
def JoinHostPort (host port : String) : String :=
  if host.data.contains ':' then "[" ++ host ++ "]:" ++ port else host ++ ":" ++ port

/-- A Go `error` value: either a leaf error carrying its message, or the value
`fmt.Errorf` builds for a format with `%w`, which keeps the wrapped cause. -/
inductive GoError where
  | errorString (s : String)
  | wrapError (msg : String) (err : GoError)
  deriving DecidableEq, Repr

/-- The `Error()` method. -/
def GoError.Error : GoError → String
  | .errorString s => s
  | .wrapError msg _ => msg

/-- The `Unwrap()` method (`errors.Unwrap`): the cause, when there is one. -/
def GoError.Unwrap : GoError → Option GoError
  | .errorString _ => none
  | .wrapError _ err => some err

/-- Go `fmt.Errorf(format + "%w", err)` for a format without other verbs: the
message is the format text followed by `err.Error()`, and `err` is the cause. -/
def Errorf_w (format : String) (err : GoError) : GoError :=
  .wrapError (format ++ err.Error) err

/-- Go `fmt.Errorf(text)` for a text without verbs. -/
def Errorf (text : String) : GoError :=
  .errorString text

/-- Go `fmt.Sprintf(format + "%s", s)` for a format without other verbs. -/
def Sprintf_s (format s : String) : String :=
  format ++ s

/-- Go `time.Minute` in nanoseconds (`60 * time.Second`). -/
def Minute : Int := 60 * 1000000000

/-- Go `context.Context`, reduced to whether it is already cancelled. -/
structure Context where
  Done : Bool
  deriving DecidableEq, Repr

/-! ## Tailscale client types -/

/-- Tailscale `tailcfg.Node`: the two fields the backend reads and some it does not. -/
structure Node where
  ID : Int
  StableID : String
  Name : String
  User : Int
  Tags : List String
  ComputedName : String
  deriving DecidableEq, Repr

/-- Tailscale `tailcfg.UserProfile`. -/
structure UserProfile where
  ID : Int
  LoginName : String
  DisplayName : String
  ProfilePicURL : String
  deriving DecidableEq, Repr

/-- Tailscale `apitype.WhoIsResponse`.  In a successful answer `Node` and
`UserProfile` are never nil, so they are not optional here. -/
structure WhoIsResponse where
  Node : Node
  UserProfile : UserProfile
  deriving DecidableEq, Repr

/-- Tailscale `tailscale.LocalClient` together with the daemon it talks to: what a
`WhoIs` query for an address is answered with. -/
structure LocalClient where
  answer : Context → String → Except GoError WhoIsResponse

/-- The method `LocalClient.WhoIs`: one round trip to the daemon, recorded in the
log of submitted addresses. -/
def LocalClient.WhoIs (lc : LocalClient) (ctx : Context) (remoteAddr : String)
    (log : List String) : Except GoError WhoIsResponse × List String :=
  (lc.answer ctx remoteAddr, log ++ [remoteAddr])

/-! ## Vault SDK types -/

/-- Vault `logical.Connection`. -/
structure Connection where
  RemoteAddr : String
  RemotePort : Int
  deriving DecidableEq, Repr

/-- Vault `logical.Request`.  The host sets `Connection` on every request that
arrives over the network, so the pointer is not optional here. -/
structure Request where
  ID : String
  Operation : String
  Path : String
  Data : List (String × String)
  ClientToken : String
  Connection : Connection
  deriving DecidableEq, Repr

/-- Vault `framework.FieldData`. -/
structure FieldData where
  Raw : List (String × String)
  deriving DecidableEq, Repr

/-- Vault `logical.Alias`; every field defaults to its Go zero value. -/
structure Alias where
  MountType : String := ""
  MountAccessor : String := ""
  Name : String := ""
  Metadata : Option (List (String × String)) := none
  CustomMetadata : Option (List (String × String)) := none
  ID : String := ""
  NamespaceID : String := ""
  Local : Bool := false
  deriving DecidableEq, Repr

/-- Vault `logical.LeaseOptions`; durations in nanoseconds. -/
structure LeaseOptions where
  TTL : Int := 0
  MaxTTL : Int := 0
  Renewable : Bool := false
  Increment : Int := 0
  IssueTime : Int := 0
  deriving DecidableEq, Repr

/-- Vault `logical.Auth`; every field defaults to its Go zero value.  Pointers to
records the backend never builds are `Option Unit`, and the `interface{}` values of
`InternalData` (a map the backend only ever creates empty) are strings. -/
structure Auth where
  LeaseOptions : LeaseOptions := {}
  InternalData : Option (List (String × String)) := none
  DisplayName : String := ""
  Policies : Option (List String) := none
  TokenPolicies : Option (List String) := none
  IdentityPolicies : Option (List String) := none
  ExternalNamespacePolicies : Option (List (String × List String)) := none
  NoDefaultPolicy : Bool := false
  Metadata : Option (List (String × String)) := none
  ClientToken : String := ""
  Accessor : String := ""
  Period : Int := 0
  ExplicitMaxTTL : Int := 0
  NumUses : Int := 0
  EntityID : String := ""
  Alias : Option Alias := none
  GroupAliases : Option (List TailscaleAuth.Alias) := none
  BoundCIDRs : Option (List String) := none
  CreationPath : String := ""
  TokenType : Nat := 0
  Orphan : Bool := false
  PolicyResults : Option Unit := none
  MFARequirement : Option Unit := none
  EntityCreated : Bool := false
  deriving DecidableEq, Repr

/-- Vault `logical.Response`; every field defaults to its Go zero value. -/
structure Response where
  Secret : Option Unit := none
  Auth : Option Auth := none
  Data : Option (List (String × String)) := none
  Redirect : String := ""
  Warnings : Option (List String) := none
  WrapInfo : Option Unit := none
  Headers : Option (List (String × List String)) := none
  MountType : String := ""
  deriving DecidableEq, Repr

/-- Vault `logical.BackendConfig`. -/
structure BackendConfig where
  BackendUUID : String
  Config : List (String × String)
  deriving DecidableEq, Repr

/-- Vault `logical.BackendType`. -/
inductive BackendType where
  | TypeUnknown
  | TypeLogical
  | TypeCredential
  deriving DecidableEq, Repr

/-- Vault `framework.Path`, without the callback itself: the pattern, the field
names and, per operation, its summary. -/
structure Path where
  Pattern : String
  Fields : List String
  Operations : List (String × String)
  deriving DecidableEq, Repr

/-- Vault `framework.Backend`: the fields `newBackend` fills in, and whether
`Setup` has stored the host's logger and system view. -/
structure FrameworkBackend where
  Help : String
  BackendType : BackendType
  Unauthenticated : List String
  Paths : List Path
  isSetup : Bool := false

/-- Vault `framework.PathAppend`. -/
def PathAppend (paths : List (List Path)) : List Path :=
  paths.flatten

/-! ## backend.go -/

/-- The struct `backend`: the embedded framework backend and the Tailscale client. -/
structure backend where
  Backend : FrameworkBackend
  lc : LocalClient

/-- The function `buildPolicies`: the loop appends one policy per tag, in order. -/
def buildPolicies (tags : List String) : List String :=
  tags.foldl (fun policies tag => policies ++ [Sprintf_s "tailscale/" (TrimPrefix tag "tag:")]) []

/-- The method `handleLogin`.  Returns Go's `(*logical.Response, error)` pair and
the log of addresses submitted to the oracle. -/
def handleLogin (b : backend) (ctx : Context) (req : Request) (_data : FieldData)
    (log : List String) : (Option Response × Option GoError) × List String :=
  let hp := JoinHostPort req.Connection.RemoteAddr (Itoa req.Connection.RemotePort)
  match b.lc.WhoIs ctx hp log with
  | (Except.error err, log1) => ((none, some (Errorf_w "failed tailscale.WhoIs: " err)), log1)
  | (Except.ok who, log1) =>
    let policies : List String := []
    let alias_ : Option Alias := none
    let (policies, alias_) :=
      if who.Node.Tags.length > 0 then
        (policies ++ buildPolicies who.Node.Tags, alias_)
      else
        (policies, some
          { Name := who.UserProfile.LoginName
            CustomMetadata := some [("display_name", who.UserProfile.DisplayName)] })
    ((some
      { Auth := some
          { InternalData := some []
            Policies := some policies
            Metadata := some [("name", who.Node.ComputedName)]
            LeaseOptions := { TTL := 2 * Minute, MaxTTL := 2 * Minute }
            Alias := alias_ } }, none), log1)

/-- The method `pathLogin`. -/
def pathLogin : Path :=
  { Pattern := "login$"
    Fields := []
    Operations := [("update", "Log in using tailscale")] }

/-- The function `newBackend`.  The `*backend` it returns is always a fresh
non-nil pointer, and the error is always nil.  The source builds a zero-valued
`tailscale.LocalClient`, which talks to the machine's own daemon; that daemon is the
parameter `lc`. -/
def newBackend (lc : LocalClient) : backend × Option GoError :=
  let b : backend :=
    { lc := lc
      Backend :=
        { Help := "Authenticate using a Tailscale mesh"
          BackendType := BackendType.TypeCredential
          Unauthenticated := ["login"]
          Paths := PathAppend [[pathLogin]] } }
  (b, none)

/-- The function `Factory`.  `Setup` is the framework's method, taken as a
parameter: it may update the embedded backend and may fail.  Returns Go's
`(logical.Backend, error)` pair and the log of configurations `Setup` was called
with. -/
def Factory (lc : LocalClient)
    (Setup : FrameworkBackend → Context → BackendConfig → FrameworkBackend × Option GoError)
    (ctx : Context) (conf : Option BackendConfig) (log : List BackendConfig) :
    (Option backend × Option GoError) × List BackendConfig :=
  match newBackend lc with
  | (_, some err) => ((none, some err), log)
  | (b, none) =>
    match conf with
    | none => ((none, some (Errorf "configuration passed into backend is nil")), log)
    | some conf =>
      match Setup b.Backend ctx conf with
      | (_, some err) => ((none, some err), log ++ [conf])
      | (fb, none) => ((some { b with Backend := fb }, none), log ++ [conf])

/-- The address `handleLogin` computes for a request (its local `hp`). -/
def hostPortOf (req : Request) : String :=
  JoinHostPort req.Connection.RemoteAddr (Itoa req.Connection.RemotePort)

/-! ## Scenario data -/

/-- Scenario A: a node tagged `tag:web`, `tag:prod`. -/
def whoTagged : WhoIsResponse :=
  { Node := { ID := 7, StableID := "nA", Name := "node1.example.ts.net.", User := 0,
              Tags := ["tag:web", "tag:prod"], ComputedName := "node1" }
    UserProfile := { ID := 0, LoginName := "tagged-devices", DisplayName := "Tagged Devices",
                     ProfilePicURL := "" } }

/-- Scenario B: an untagged node owned by a user. -/
def whoUser : WhoIsResponse :=
  { Node := { ID := 9, StableID := "nB", Name := "alices-laptop.example.ts.net.", User := 42,
              Tags := [], ComputedName := "alices-laptop" }
    UserProfile := { ID := 42, LoginName := "alice@example.com", DisplayName := "Alice",
                     ProfilePicURL := "https://example.com/alice.png" } }

/-- A daemon that knows two peers and reports every other address as not found. -/
def daemon : LocalClient :=
  { answer := fun _ hp =>
      if hp = "100.64.0.1:443" then Except.ok whoTagged
      else if hp = "[fd7a::2]:51000" then Except.ok whoUser
      else Except.error (GoError.errorString "tailscale: peer not found") }

/-- The backend `newBackend` builds over that daemon. -/
def backendA : backend := (newBackend daemon).1

/-- A login request from the given remote address and port. -/
def loginFrom (host : String) (port : Int) : Request :=
  { ID := "req", Operation := "update", Path := "login", Data := [], ClientToken := "",
    Connection := { RemoteAddr := host, RemotePort := port } }

/-- A context that is not cancelled. -/
def ctxLive : Context := { Done := false }

/-- Field data of a request without parameters. -/
def noData : FieldData := { Raw := [] }

/-- Another node with the tags and names of scenario A, and nothing else in common. -/
def whoTaggedTwin : WhoIsResponse :=
  { Node := { ID := 1234, StableID := "nZ", Name := "other.example.ts.net.", User := 5,
              Tags := ["tag:web", "tag:prod"], ComputedName := "node1" }
    UserProfile := { ID := 5, LoginName := "tagged-devices", DisplayName := "Tagged Devices",
                     ProfilePicURL := "https://example.com/t.png" } }

/-- Another daemon, which answers every address with that node unless the context is
cancelled. -/
def daemonTwin : LocalClient :=
  { answer := fun ctx _ =>
      if ctx.Done then Except.error (GoError.errorString "context canceled")
      else Except.ok whoTaggedTwin }

/-- A login request that carries data and a token. -/
def noisyLogin : Request :=
  { ID := "req-2", Operation := "update", Path := "login", Data := [("role", "admin")],
    ClientToken := "s.abc", Connection := { RemoteAddr := "fd7a::77", RemotePort := 8200 } }

/-- A `Setup` that stores the host's services and succeeds, as the framework's does. -/
def setupOk (fb : FrameworkBackend) (_ctx : Context) (_conf : BackendConfig) :
    FrameworkBackend × Option GoError :=
  ({ fb with isSetup := true }, none)

/-- A `Setup` that fails. -/
def setupFails (fb : FrameworkBackend) (_ctx : Context) (_conf : BackendConfig) :
    FrameworkBackend × Option GoError :=
  (fb, some (GoError.errorString "setup failed"))

/-- A host configuration. -/
def confA : BackendConfig := { BackendUUID := "uuid-1", Config := [] }

/-- The value a text of decimal digits denotes, most significant digit first. -/
def decimalValue (s : String) : Nat :=
  s.data.foldl (fun v c => 10 * v + (c.toNat - '0'.toNat)) 0

/-! ## Strings -/

theorem tag_data : "tag:".data = ['t', 'a', 'g', ':'] := rfl

theorem HasPrefix_append (pre rest : String) : HasPrefix (pre ++ rest) pre = true := by
  simp [HasPrefix, String.data_append]

theorem TrimPrefix_append (pre rest : String) : TrimPrefix (pre ++ rest) pre = rest := by
  simp [TrimPrefix, HasPrefix_append, String.data_append]

theorem HasPrefix_iff (s pre : String) : HasPrefix s pre = true ↔ ∃ rest, s = pre ++ rest := by
  constructor
  · intro h
    simp only [HasPrefix, Bool.and_eq_true, decide_eq_true_eq, beq_iff_eq] at h
    refine ⟨String.mk (s.data.drop pre.data.length), ?_⟩
    apply String.ext
    rw [String.data_append]
    conv_lhs => rw [← List.take_append_drop pre.data.length s.data]
    rw [h.2]
  · rintro ⟨rest, rfl⟩
    exact HasPrefix_append pre rest

theorem TrimPrefix_of_not (s pre : String) (h : ¬ ∃ rest, s = pre ++ rest) :
    TrimPrefix s pre = s := by
  have hp : HasPrefix s pre = false := by
    cases hq : HasPrefix s pre
    · rfl
    · exact absurd ((HasPrefix_iff s pre).1 hq) h
  simp [TrimPrefix, hp]

theorem append_left_cancel (a b c : String) (h : a ++ b = a ++ c) : b = c := by
  apply String.ext
  have := congrArg String.data h
  simpa [String.data_append] using this

/-! ## Decimal text -/

theorem digitChar_spec (d : Nat) (hd : d < 10) :
    (Nat.digitChar d).isDigit = true ∧ (Nat.digitChar d).toNat - '0'.toNat = d := by
  interval_cases d <;> exact ⟨by decide, by decide⟩

theorem toDigitsCore_spec (fuel : Nat) : ∀ (n : Nat) (acc : List Char), n < fuel →
    ∃ ds, Nat.toDigitsCore 10 fuel n acc = ds ++ acc ∧ (∀ c ∈ ds, c.isDigit = true) ∧
      ds.foldl (fun v c => 10 * v + (c.toNat - '0'.toNat)) 0 = n := by
  induction fuel with
  | zero => intro n acc h; omega
  | succ fuel ih =>
    intro n acc h
    have hd := digitChar_spec (n % 10) (Nat.mod_lt _ (by decide))
    by_cases hq : n / 10 = 0
    · refine ⟨[Nat.digitChar (n % 10)], ?_, ?_, ?_⟩
      · simp [Nat.toDigitsCore, hq]
      · intro c hc
        rw [List.mem_singleton] at hc
        rw [hc]
        exact hd.1
      · simp only [List.foldl_cons, List.foldl_nil, hd.2]
        omega
    · have hlt : n / 10 < fuel := by omega
      obtain ⟨ds, h1, h2, h3⟩ := ih (n / 10) (Nat.digitChar (n % 10) :: acc) hlt
      refine ⟨ds ++ [Nat.digitChar (n % 10)], ?_, ?_, ?_⟩
      · simp [Nat.toDigitsCore, hq, h1]
      · intro c hc
        rw [List.mem_append, List.mem_singleton] at hc
        rcases hc with hc | hc
        · exact h2 c hc
        · rw [hc]
          exact hd.1
      · rw [List.foldl_append, h3]
        simp only [List.foldl_cons, List.foldl_nil, hd.2]
        omega

theorem Itoa_decimal (port : Int) (h0 : 0 ≤ port) :
    (∀ c ∈ (Itoa port).data, c.isDigit = true) ∧ (decimalValue (Itoa port) : Int) = port := by
  obtain ⟨n, rfl⟩ := Int.eq_ofNat_of_zero_le h0
  obtain ⟨ds, h1, h2, h3⟩ := toDigitsCore_spec (n + 1) n [] (Nat.lt_succ_self n)
  rw [List.append_nil] at h1
  have hI : (Itoa (n : Int)).data = ds := by
    show (formatDecimal n).data = ds
    simp [formatDecimal, Nat.toDigits, h1]
  refine ⟨?_, ?_⟩
  · rw [hI]
    exact h2
  · simp only [decimalValue, hI, h3]

/-! ## Durations -/

theorem two_minutes : 2 * Minute = 120000000000 := by decide

theorem two_minutes_seconds : 2 * Minute = 120 * 1000000000 := by decide

/-! ## buildPolicies -/

theorem buildPolicies_foldl (tags acc : List String) :
    tags.foldl (fun policies tag => policies ++ [Sprintf_s "tailscale/" (TrimPrefix tag "tag:")]) acc
      = acc ++ tags.map (fun tag => Sprintf_s "tailscale/" (TrimPrefix tag "tag:")) := by
  induction tags generalizing acc with
  | nil => simp
  | cons t ts ih => simp [List.foldl_cons, ih]

theorem buildPolicies_eq_map (tags : List String) :
    buildPolicies tags = tags.map (fun tag => Sprintf_s "tailscale/" (TrimPrefix tag "tag:")) := by
  simp [buildPolicies, buildPolicies_foldl]

theorem buildPolicies_length (tags : List String) :
    (buildPolicies tags).length = tags.length := by
  simp [buildPolicies_eq_map]

theorem buildPolicies_getElem? (tags : List String) (i : Nat) (hi : i < tags.length) :
    (buildPolicies tags)[i]? = some ("tailscale/" ++ TrimPrefix tags[i] "tag:") := by
  simp [buildPolicies_eq_map, Sprintf_s, List.getElem?_eq_getElem hi]

/-! ## handleLogin, by the oracle's answer -/

theorem handleLogin_error (b : backend) (ctx : Context) (req : Request) (data : FieldData)
    (log : List String) (e : GoError)
    (h : b.lc.answer ctx (hostPortOf req) = Except.error e) :
    handleLogin b ctx req data log
      = ((none, some (Errorf_w "failed tailscale.WhoIs: " e)),
          log ++ [hostPortOf req]) := by
  simp only [hostPortOf] at h
  simp [handleLogin, LocalClient.WhoIs, h, hostPortOf]

theorem handleLogin_tagged (b : backend) (ctx : Context) (req : Request) (data : FieldData)
    (log : List String) (who : WhoIsResponse)
    (h : b.lc.answer ctx (hostPortOf req) = Except.ok who)
    (ht : who.Node.Tags ≠ []) :
    handleLogin b ctx req data log
      = ((some
          { Auth := some
              { InternalData := some []
                Policies := some (buildPolicies who.Node.Tags)
                Metadata := some [("name", who.Node.ComputedName)]
                LeaseOptions := { TTL := 2 * Minute, MaxTTL := 2 * Minute }
                Alias := none } }, none),
          log ++ [hostPortOf req]) := by
  have hl : 0 < who.Node.Tags.length := List.length_pos.2 ht
  simp only [hostPortOf] at h
  simp [handleLogin, LocalClient.WhoIs, h, hl, hostPortOf]

theorem handleLogin_user (b : backend) (ctx : Context) (req : Request) (data : FieldData)
    (log : List String) (who : WhoIsResponse)
    (h : b.lc.answer ctx (hostPortOf req) = Except.ok who)
    (ht : who.Node.Tags = []) :
    handleLogin b ctx req data log
      = ((some
          { Auth := some
              { InternalData := some []
                Policies := some []
                Metadata := some [("name", who.Node.ComputedName)]
                LeaseOptions := { TTL := 2 * Minute, MaxTTL := 2 * Minute }
                Alias := some
                  { Name := who.UserProfile.LoginName
                    CustomMetadata := some [("display_name", who.UserProfile.DisplayName)] } } },
            none),
          log ++ [hostPortOf req]) := by
  simp only [hostPortOf] at h
  simp [handleLogin, LocalClient.WhoIs, h, ht, hostPortOf]

/-! ## The claims -/

/-- C1: when the oracle answers with a non-empty tag list, `handleLogin` succeeds with
`Policies` of the same length as the tag list, whose `i`-th element is `tailscale/`
followed by the `i`-th tag with one leading `tag:` removed when the tag begins with
it, and by the tag itself otherwise; `Alias` is nil. -/
theorem handleLogin_tagged_policies (b : backend) (ctx : Context) (req : Request)
    (data : FieldData) (log : List String) (who : WhoIsResponse)
    (h : b.lc.answer ctx (hostPortOf req) = Except.ok who) (ht : who.Node.Tags ≠ []) :
    ∃ r a ps, (handleLogin b ctx req data log).1 = (some r, none) ∧ r.Auth = some a ∧
      a.Policies = some ps ∧ a.Alias = none ∧ ps.length = who.Node.Tags.length ∧
      ∀ (i : Nat) (hi : i < who.Node.Tags.length),
        (∃ rest, who.Node.Tags[i] = "tag:" ++ rest ∧ ps[i]? = some ("tailscale/" ++ rest)) ∨
        ((¬ ∃ rest, who.Node.Tags[i] = "tag:" ++ rest) ∧
          ps[i]? = some ("tailscale/" ++ who.Node.Tags[i])) := by
  rw [handleLogin_tagged b ctx req data log who h ht]
  refine ⟨_, _, _, rfl, rfl, rfl, rfl, buildPolicies_length _, ?_⟩
  intro i hi
  by_cases hp : ∃ rest, who.Node.Tags[i] = "tag:" ++ rest
  · obtain ⟨rest, hrest⟩ := hp
    refine Or.inl ⟨rest, hrest, ?_⟩
    rw [buildPolicies_getElem? _ i hi, hrest, TrimPrefix_append]
  · refine Or.inr ⟨hp, ?_⟩
    rw [buildPolicies_getElem? _ i hi, TrimPrefix_of_not _ _ hp]

/-- C1 at scenario A and at the malformed tags `web` and `tag:tag:x`. -/
theorem handleLogin_tagged_policies_witness :
    (daemon.answer ctxLive (hostPortOf (loginFrom "100.64.0.1" 443)) = Except.ok whoTagged ∧
      whoTagged.Node.Tags ≠ []) ∧
    (∃ r a ps, (handleLogin backendA ctxLive (loginFrom "100.64.0.1" 443) noData []).1
        = (some r, none) ∧ r.Auth = some a ∧
      a.Policies = some ps ∧ a.Alias = none ∧ ps.length = whoTagged.Node.Tags.length ∧
      ∀ (i : Nat) (hi : i < whoTagged.Node.Tags.length),
        (∃ rest, whoTagged.Node.Tags[i] = "tag:" ++ rest ∧
          ps[i]? = some ("tailscale/" ++ rest)) ∨
        ((¬ ∃ rest, whoTagged.Node.Tags[i] = "tag:" ++ rest) ∧
          ps[i]? = some ("tailscale/" ++ whoTagged.Node.Tags[i]))) ∧
    buildPolicies ["tag:web", "tag:prod"] = ["tailscale/web", "tailscale/prod"] ∧
    buildPolicies ["web"] = ["tailscale/web"] ∧
    buildPolicies ["tag:tag:x"] = ["tailscale/tag:x"] :=
  ⟨⟨rfl, by decide⟩,
    handleLogin_tagged_policies backendA ctxLive (loginFrom "100.64.0.1" 443) noData []
      whoTagged rfl (by decide),
    by decide, by decide, by decide⟩

/-- C2: when the oracle answers with an empty tag list, `handleLogin` succeeds with
`Policies` the empty list and an `Alias` whose `Name` is the login name and whose
`CustomMetadata` is the one-entry map from `display_name` to the display name. -/
theorem handleLogin_user_alias (b : backend) (ctx : Context) (req : Request)
    (data : FieldData) (log : List String) (who : WhoIsResponse)
    (h : b.lc.answer ctx (hostPortOf req) = Except.ok who) (ht : who.Node.Tags = []) :
    ∃ r a al, (handleLogin b ctx req data log).1 = (some r, none) ∧ r.Auth = some a ∧
      a.Policies = some [] ∧ a.Alias = some al ∧ al.Name = who.UserProfile.LoginName ∧
      al.CustomMetadata = some [("display_name", who.UserProfile.DisplayName)] := by
  rw [handleLogin_user b ctx req data log who h ht]
  exact ⟨_, _, _, rfl, rfl, rfl, rfl, rfl, rfl⟩

/-- C2 at scenario B: `alice@example.com`, display name `Alice`. -/
theorem handleLogin_user_alias_witness :
    (daemon.answer ctxLive (hostPortOf (loginFrom "fd7a::2" 51000)) = Except.ok whoUser ∧
      whoUser.Node.Tags = []) ∧
    ∃ r a al, (handleLogin backendA ctxLive (loginFrom "fd7a::2" 51000) noData []).1
        = (some r, none) ∧ r.Auth = some a ∧
      a.Policies = some [] ∧ a.Alias = some al ∧ al.Name = "alice@example.com" ∧
      al.CustomMetadata = some [("display_name", "Alice")] :=
  ⟨⟨rfl, rfl⟩,
    handleLogin_user_alias backendA ctxLive (loginFrom "fd7a::2" 51000) noData [] whoUser
      rfl rfl⟩

/-- C3: `handleLogin` returns a non-nil error exactly when the oracle lookup for the
request's address fails; then the response is nil and the error wraps the oracle's
error, with message `failed tailscale.WhoIs: ` followed by the cause's message.  When
the lookup succeeds the response and its `Auth` are non-nil and the error is nil. -/
theorem handleLogin_error_iff (b : backend) (ctx : Context) (req : Request)
    (data : FieldData) (log : List String) :
    ((handleLogin b ctx req data log).1.2 ≠ none ↔
        ∃ e, b.lc.answer ctx (hostPortOf req) = Except.error e) ∧
    (∀ e, b.lc.answer ctx (hostPortOf req) = Except.error e →
        ∃ w, (handleLogin b ctx req data log).1 = (none, some w) ∧ w.Unwrap = some e ∧
          w.Error = "failed tailscale.WhoIs: " ++ e.Error) ∧
    (∀ who, b.lc.answer ctx (hostPortOf req) = Except.ok who →
        ∃ r a, (handleLogin b ctx req data log).1 = (some r, none) ∧ r.Auth = some a) := by
  have herr : ∀ e, b.lc.answer ctx (hostPortOf req) = Except.error e →
      ∃ w, (handleLogin b ctx req data log).1 = (none, some w) ∧ w.Unwrap = some e ∧
        w.Error = "failed tailscale.WhoIs: " ++ e.Error := by
    intro e he
    rw [handleLogin_error b ctx req data log e he]
    exact ⟨_, rfl, rfl, rfl⟩
  have hok : ∀ who, b.lc.answer ctx (hostPortOf req) = Except.ok who →
      ∃ r a, (handleLogin b ctx req data log).1 = (some r, none) ∧ r.Auth = some a := by
    intro who hw
    by_cases ht : who.Node.Tags = []
    · rw [handleLogin_user b ctx req data log who hw ht]
      exact ⟨_, _, rfl, rfl⟩
    · rw [handleLogin_tagged b ctx req data log who hw ht]
      exact ⟨_, _, rfl, rfl⟩
  refine ⟨⟨?_, ?_⟩, herr, hok⟩
  · intro hne
    cases hans : b.lc.answer ctx (hostPortOf req) with
    | error e => exact ⟨e, rfl⟩
    | ok who =>
      obtain ⟨r, a, hr, _⟩ := hok who hans
      rw [hr] at hne
      exact absurd rfl hne
  · rintro ⟨e, he⟩
    obtain ⟨w, hw, _⟩ := herr e he
    rw [hw]
    simp

/-- C3 at an address the daemon does not know, and at the two it knows. -/
theorem handleLogin_error_iff_witness :
    (handleLogin backendA ctxLive (loginFrom "10.0.0.9" 80) noData []).1
      = (none, some (GoError.wrapError "failed tailscale.WhoIs: tailscale: peer not found"
          (GoError.errorString "tailscale: peer not found"))) ∧
    (∃ w, (handleLogin backendA ctxLive (loginFrom "10.0.0.9" 80) noData []).1 = (none, some w) ∧
      w.Unwrap = some (GoError.errorString "tailscale: peer not found") ∧
      w.Error = "failed tailscale.WhoIs: " ++
        (GoError.errorString "tailscale: peer not found").Error) ∧
    (∃ r a, (handleLogin backendA ctxLive (loginFrom "100.64.0.1" 443) noData []).1
      = (some r, none) ∧ r.Auth = some a) :=
  ⟨by decide,
    (handleLogin_error_iff backendA ctxLive (loginFrom "10.0.0.9" 80) noData []).2.1 _ rfl,
    (handleLogin_error_iff backendA ctxLive (loginFrom "100.64.0.1" 443) noData []).2.2 _ rfl⟩

/-- C4: in every successful `handleLogin`, tagged or not, `Auth.Metadata` is the
one-entry map from `name` to the node's computed name. -/
theorem handleLogin_metadata (b : backend) (ctx : Context) (req : Request)
    (data : FieldData) (log : List String) (who : WhoIsResponse)
    (h : b.lc.answer ctx (hostPortOf req) = Except.ok who) :
    ∃ r a, (handleLogin b ctx req data log).1 = (some r, none) ∧ r.Auth = some a ∧
      a.Metadata = some [("name", who.Node.ComputedName)] := by
  by_cases ht : who.Node.Tags = []
  · rw [handleLogin_user b ctx req data log who h ht]
    exact ⟨_, _, rfl, rfl, rfl⟩
  · rw [handleLogin_tagged b ctx req data log who h ht]
    exact ⟨_, _, rfl, rfl, rfl⟩

/-- C4 at scenario A (tagged) and scenario B (user). -/
theorem handleLogin_metadata_witness :
    (∃ r a, (handleLogin backendA ctxLive (loginFrom "100.64.0.1" 443) noData []).1
        = (some r, none) ∧ r.Auth = some a ∧ a.Metadata = some [("name", "node1")]) ∧
    (∃ r a, (handleLogin backendA ctxLive (loginFrom "fd7a::2" 51000) noData []).1
        = (some r, none) ∧ r.Auth = some a ∧ a.Metadata = some [("name", "alices-laptop")]) :=
  ⟨handleLogin_metadata backendA ctxLive (loginFrom "100.64.0.1" 443) noData [] whoTagged rfl,
    handleLogin_metadata backendA ctxLive (loginFrom "fd7a::2" 51000) noData [] whoUser rfl⟩

/-- C5: in every successful `handleLogin`, `LeaseOptions.TTL` equals
`LeaseOptions.MaxTTL`, and both are 2 minutes: 120 seconds, 120,000,000,000 ns. -/
theorem handleLogin_lease (b : backend) (ctx : Context) (req : Request)
    (data : FieldData) (log : List String) (who : WhoIsResponse)
    (h : b.lc.answer ctx (hostPortOf req) = Except.ok who) :
    ∃ r a, (handleLogin b ctx req data log).1 = (some r, none) ∧ r.Auth = some a ∧
      a.LeaseOptions.TTL = a.LeaseOptions.MaxTTL ∧
      a.LeaseOptions.TTL = 120000000000 ∧ a.LeaseOptions.MaxTTL = 120000000000 ∧
      a.LeaseOptions.TTL = 2 * Minute ∧ a.LeaseOptions.TTL = 120 * 1000000000 := by
  by_cases ht : who.Node.Tags = []
  · rw [handleLogin_user b ctx req data log who h ht]
    exact ⟨_, _, rfl, rfl, rfl, two_minutes, two_minutes, rfl, two_minutes_seconds⟩
  · rw [handleLogin_tagged b ctx req data log who h ht]
    exact ⟨_, _, rfl, rfl, rfl, two_minutes, two_minutes, rfl, two_minutes_seconds⟩

/-- C5 at scenario B. -/
theorem handleLogin_lease_witness :
    ∃ r a, (handleLogin backendA ctxLive (loginFrom "fd7a::2" 51000) noData []).1
        = (some r, none) ∧ r.Auth = some a ∧
      a.LeaseOptions.TTL = a.LeaseOptions.MaxTTL ∧
      a.LeaseOptions.TTL = 120000000000 ∧ a.LeaseOptions.MaxTTL = 120000000000 ∧
      a.LeaseOptions.TTL = 2 * Minute ∧ a.LeaseOptions.TTL = 120 * 1000000000 :=
  handleLogin_lease backendA ctxLive (loginFrom "fd7a::2" 51000) noData [] whoUser rfl

/-- C6, as stated, fails: in the response of scenario A the field `Auth.InternalData`
is a non-nil (empty) map, not the nil map that is the zero value of its type. -/
theorem handleLogin_internalData_not_nil :
    ∃ r a, (handleLogin backendA ctxLive (loginFrom "100.64.0.1" 443) noData []).1
        = (some r, none) ∧ r.Auth = some a ∧ a.InternalData = some [] ∧ a.InternalData ≠ none :=
  ⟨_, _, rfl, rfl, rfl, by decide⟩

/-- C6, amended: in the response of a successful `handleLogin`, `InternalData` is a
non-nil empty map, and apart from it and from `Policies`, `Alias`, `Metadata`,
`LeaseOptions.TTL` and `LeaseOptions.MaxTTL`, every field of the response and of its
`Auth` record has its zero value; an `Alias`, when present, has only `Name` and
`CustomMetadata` set. -/
theorem handleLogin_frame (b : backend) (ctx : Context) (req : Request)
    (data : FieldData) (log : List String) (who : WhoIsResponse)
    (h : b.lc.answer ctx (hostPortOf req) = Except.ok who) :
    ∃ r a, (handleLogin b ctx req data log).1 = (some r, none) ∧ r.Auth = some a ∧
      a.InternalData = some [] ∧
      (r.Secret = none ∧ r.Data = none ∧ r.Redirect = "" ∧ r.Warnings = none ∧
        r.WrapInfo = none ∧ r.Headers = none ∧ r.MountType = "") ∧
      (a.LeaseOptions.Renewable = false ∧ a.LeaseOptions.Increment = 0 ∧
        a.LeaseOptions.IssueTime = 0) ∧
      (a.DisplayName = "" ∧ a.TokenPolicies = none ∧ a.IdentityPolicies = none ∧
        a.ExternalNamespacePolicies = none ∧ a.NoDefaultPolicy = false ∧ a.ClientToken = "" ∧
        a.Accessor = "" ∧ a.Period = 0 ∧ a.ExplicitMaxTTL = 0 ∧ a.NumUses = 0 ∧
        a.EntityID = "" ∧ a.GroupAliases = none ∧ a.BoundCIDRs = none ∧ a.CreationPath = "" ∧
        a.TokenType = 0 ∧ a.Orphan = false ∧ a.PolicyResults = none ∧
        a.MFARequirement = none ∧ a.EntityCreated = false) ∧
      (∀ al, a.Alias = some al →
        al.MountType = "" ∧ al.MountAccessor = "" ∧ al.Metadata = none ∧ al.ID = "" ∧
        al.NamespaceID = "" ∧ al.Local = false) := by
  by_cases ht : who.Node.Tags = []
  · rw [handleLogin_user b ctx req data log who h ht]
    refine ⟨_, _, rfl, rfl, rfl, ?_, ?_, ?_, ?_⟩
    · exact ⟨rfl, rfl, rfl, rfl, rfl, rfl, rfl⟩
    · exact ⟨rfl, rfl, rfl⟩
    · exact ⟨rfl, rfl, rfl, rfl, rfl, rfl, rfl, rfl, rfl, rfl, rfl, rfl, rfl, rfl, rfl, rfl,
        rfl, rfl, rfl⟩
    · intro al hal
      cases hal
      exact ⟨rfl, rfl, rfl, rfl, rfl, rfl⟩
  · rw [handleLogin_tagged b ctx req data log who h ht]
    refine ⟨_, _, rfl, rfl, rfl, ?_, ?_, ?_, ?_⟩
    · exact ⟨rfl, rfl, rfl, rfl, rfl, rfl, rfl⟩
    · exact ⟨rfl, rfl, rfl⟩
    · exact ⟨rfl, rfl, rfl, rfl, rfl, rfl, rfl, rfl, rfl, rfl, rfl, rfl, rfl, rfl, rfl, rfl,
        rfl, rfl, rfl⟩
    · intro al hal
      cases hal

/-- C6, amended, at scenario B. -/
theorem handleLogin_frame_witness :
    ∃ r a, (handleLogin backendA ctxLive (loginFrom "fd7a::2" 51000) noData []).1
        = (some r, none) ∧ r.Auth = some a ∧
      a.InternalData = some [] ∧
      (r.Secret = none ∧ r.Data = none ∧ r.Redirect = "" ∧ r.Warnings = none ∧
        r.WrapInfo = none ∧ r.Headers = none ∧ r.MountType = "") ∧
      (a.LeaseOptions.Renewable = false ∧ a.LeaseOptions.Increment = 0 ∧
        a.LeaseOptions.IssueTime = 0) ∧
      (a.DisplayName = "" ∧ a.TokenPolicies = none ∧ a.IdentityPolicies = none ∧
        a.ExternalNamespacePolicies = none ∧ a.NoDefaultPolicy = false ∧ a.ClientToken = "" ∧
        a.Accessor = "" ∧ a.Period = 0 ∧ a.ExplicitMaxTTL = 0 ∧ a.NumUses = 0 ∧
        a.EntityID = "" ∧ a.GroupAliases = none ∧ a.BoundCIDRs = none ∧ a.CreationPath = "" ∧
        a.TokenType = 0 ∧ a.Orphan = false ∧ a.PolicyResults = none ∧
        a.MFARequirement = none ∧ a.EntityCreated = false) ∧
      (∀ al, a.Alias = some al →
        al.MountType = "" ∧ al.MountAccessor = "" ∧ al.Metadata = none ∧ al.ID = "" ∧
        al.NamespaceID = "" ∧ al.Local = false) :=
  handleLogin_frame backendA ctxLive (loginFrom "fd7a::2" 51000) noData [] whoUser rfl

/-- C9: two logins whose oracle answers agree on the tags, the computed name, the
login name and the display name get the same response and the same error, whatever
the backends, contexts, requests, field data and earlier oracle calls are. -/
theorem handleLogin_deterministic (b1 b2 : backend) (ctx1 ctx2 : Context)
    (req1 req2 : Request) (data1 data2 : FieldData) (log1 log2 : List String)
    (who1 who2 : WhoIsResponse)
    (h1 : b1.lc.answer ctx1 (hostPortOf req1) = Except.ok who1)
    (h2 : b2.lc.answer ctx2 (hostPortOf req2) = Except.ok who2)
    (hTags : who1.Node.Tags = who2.Node.Tags)
    (hName : who1.Node.ComputedName = who2.Node.ComputedName)
    (hLogin : who1.UserProfile.LoginName = who2.UserProfile.LoginName)
    (hDisplay : who1.UserProfile.DisplayName = who2.UserProfile.DisplayName) :
    (handleLogin b1 ctx1 req1 data1 log1).1 = (handleLogin b2 ctx2 req2 data2 log2).1 := by
  by_cases ht : who1.Node.Tags = []
  · rw [handleLogin_user b1 ctx1 req1 data1 log1 who1 h1 ht,
      handleLogin_user b2 ctx2 req2 data2 log2 who2 h2 (hTags ▸ ht), hName, hLogin, hDisplay]
  · rw [handleLogin_tagged b1 ctx1 req1 data1 log1 who1 h1 ht,
      handleLogin_tagged b2 ctx2 req2 data2 log2 who2 h2 (hTags ▸ ht), hName, hTags]

/-- C9 at scenario A and a login through another daemon, from another address, with
other request data, after earlier oracle calls. -/
theorem handleLogin_deterministic_witness :
    (whoTagged ≠ whoTaggedTwin ∧
      hostPortOf (loginFrom "100.64.0.1" 443) ≠ hostPortOf noisyLogin) ∧
    (handleLogin backendA ctxLive (loginFrom "100.64.0.1" 443) noData []).1
      = (handleLogin (newBackend daemonTwin).1 ctxLive noisyLogin
          { Raw := [("x", "y")] } ["100.64.0.1:443", "10.0.0.9:80"]).1 :=
  ⟨⟨by decide, by decide⟩,
    handleLogin_deterministic backendA (newBackend daemonTwin).1 ctxLive ctxLive
      (loginFrom "100.64.0.1" 443) noisyLogin noData { Raw := [("x", "y")] } []
      ["100.64.0.1:443", "10.0.0.9:80"] whoTagged whoTaggedTwin rfl rfl rfl rfl rfl rfl⟩

/-- C10: on tag lists in which every tag begins with `tag:`, `buildPolicies` is
injective; without that restriction it is not, since `tag:foo` and `foo` both give
`tailscale/foo`. -/
theorem buildPolicies_injective_wellformed :
    (∀ T1 T2 : List String,
      (∀ t ∈ T1, HasPrefix t "tag:" = true) → (∀ t ∈ T2, HasPrefix t "tag:" = true) →
      buildPolicies T1 = buildPolicies T2 → T1 = T2) ∧
    (buildPolicies ["tag:foo"] = buildPolicies ["foo"] ∧ ["tag:foo"] ≠ ["foo"] ∧
      buildPolicies ["tag:foo"] = ["tailscale/foo"]) := by
  refine ⟨?_, by decide, by decide, by decide⟩
  intro T1
  induction T1 with
  | nil =>
    intro T2 _ _ h
    cases T2 with
    | nil => rfl
    | cons t ts => simp [buildPolicies_eq_map] at h
  | cons t1 ts1 ih =>
    intro T2 h1 h2 h
    cases T2 with
    | nil => simp [buildPolicies_eq_map] at h
    | cons t2 ts2 =>
      rw [buildPolicies_eq_map, buildPolicies_eq_map, List.map_cons, List.map_cons,
        List.cons.injEq, ← buildPolicies_eq_map, ← buildPolicies_eq_map] at h
      obtain ⟨r1, hr1⟩ := (HasPrefix_iff t1 "tag:").1 (h1 t1 (List.mem_cons_self _ _))
      obtain ⟨r2, hr2⟩ := (HasPrefix_iff t2 "tag:").1 (h2 t2 (List.mem_cons_self _ _))
      have hhead : r1 = r2 := by
        have := h.1
        rw [hr1, hr2, TrimPrefix_append, TrimPrefix_append] at this
        exact append_left_cancel "tailscale/" r1 r2 this
      have htail : ts1 = ts2 :=
        ih ts2 (fun t ht => h1 t (List.mem_cons_of_mem _ ht))
          (fun t ht => h2 t (List.mem_cons_of_mem _ ht)) h.2
      rw [hr1, hr2, hhead, htail]

/-- C10 at two well-formed tag lists with the same policies. -/
theorem buildPolicies_injective_wellformed_witness :
    ((∀ t ∈ ["tag:web", "tag:prod"], HasPrefix t "tag:" = true) ∧
      buildPolicies ["tag:web", "tag:prod"] = buildPolicies ("tag:web" :: ["tag:prod"])) ∧
    ["tag:web", "tag:prod"] = "tag:web" :: ["tag:prod"] :=
  ⟨⟨by decide, by decide⟩,
    buildPolicies_injective_wellformed.1 ["tag:web", "tag:prod"] ("tag:web" :: ["tag:prod"])
      (by decide) (by decide) (by decide)⟩

/-- C8: `Factory` with a nil configuration returns a nil backend and the error
`configuration passed into backend is nil` and does not call `Setup`; and whenever
`Factory` returns a non-nil error, the backend it returns is nil. -/
theorem Factory_error_no_backend (lc : LocalClient)
    (Setup : FrameworkBackend → Context → BackendConfig → FrameworkBackend × Option GoError)
    (ctx : Context) (conf : Option BackendConfig) (log : List BackendConfig) :
    (Factory lc Setup ctx none log
        = ((none, some (GoError.errorString "configuration passed into backend is nil")), log)) ∧
    ((Factory lc Setup ctx conf log).1.2 ≠ none → (Factory lc Setup ctx conf log).1.1 = none) := by
  refine ⟨rfl, ?_⟩
  cases conf with
  | none => intro _; rfl
  | some c =>
    simp only [Factory, newBackend]
    cases hs : (Setup _ ctx c).2 with
    | none =>
      intro hne
      exfalso
      apply hne
      cases hq : Setup _ ctx c with
      | mk fb e =>
        rw [hq] at hs
        simp only at hs
        subst hs
        rfl
    | some e =>
      intro _
      cases hq : Setup _ ctx c with
      | mk fb e2 =>
        rw [hq] at hs
        simp only at hs
        subst hs
        rfl

/-- C8 at a nil configuration, at a failing `Setup`, and at a `Setup` that succeeds. -/
theorem Factory_error_no_backend_witness :
    (Factory daemon setupOk ctxLive none []).1.2 ≠ none ∧
    (Factory daemon setupOk ctxLive none []
      = ((none, some (GoError.errorString "configuration passed into backend is nil")), [])) ∧
    ((Factory daemon setupFails ctxLive (some confA) []).1.2 ≠ none ∧
      (Factory daemon setupFails ctxLive (some confA) []).1.1 = none) ∧
    ((Factory daemon setupOk ctxLive (some confA) []).1.2 = none ∧
      (Factory daemon setupOk ctxLive (some confA) []).2 = [confA]) :=
  ⟨by decide,
    (Factory_error_no_backend daemon setupOk ctxLive none []).1,
    ⟨by decide,
      (Factory_error_no_backend daemon setupFails ctxLive (some confA) []).2 (by decide)⟩,
    ⟨rfl, rfl⟩⟩

/-- C7: `handleLogin` submits exactly one address to the oracle, whether the lookup
fails or not, and that address is `JoinHostPort` of the remote address and the decimal
text of the remote port: `host:port` for a host without `:` and `%` and a port in
0..65535, where the port text is made of digits and denotes the port, and
`[host]:port` for a host that contains `:`. -/
theorem handleLogin_oracle_once (b : backend) (ctx : Context) (req : Request)
    (data : FieldData) (log : List String) :
    (handleLogin b ctx req data log).2
      = log ++ [JoinHostPort req.Connection.RemoteAddr (Itoa req.Connection.RemotePort)] ∧
    (∀ (host : String) (port : Int), ':' ∉ host.data → '%' ∉ host.data →
      0 ≤ port → port ≤ 65535 →
      JoinHostPort host (Itoa port) = host ++ ":" ++ Itoa port ∧
      (∀ c ∈ (Itoa port).data, c.isDigit = true) ∧ (decimalValue (Itoa port) : Int) = port) ∧
    (∀ (host : String) (port : Int), ':' ∈ host.data →
      JoinHostPort host (Itoa port) = "[" ++ host ++ "]:" ++ Itoa port) := by
  refine ⟨?_, ?_, ?_⟩
  · cases hans : b.lc.answer ctx (hostPortOf req) with
    | error e => rw [handleLogin_error b ctx req data log e hans]; rfl
    | ok who =>
      by_cases ht : who.Node.Tags = []
      · rw [handleLogin_user b ctx req data log who hans ht]; rfl
      · rw [handleLogin_tagged b ctx req data log who hans ht]; rfl
  · intro host port hc _ h0 _
    refine ⟨?_, Itoa_decimal port h0⟩
    simp [JoinHostPort, hc]
  · intro host port hc
    simp [JoinHostPort, hc]

/-- C7 at an unknown IPv4 peer (one failed lookup, no retry), at port bounds, and at an
IPv6 peer. -/
theorem handleLogin_oracle_once_witness :
    (handleLogin backendA ctxLive (loginFrom "10.0.0.9" 80) noData ["100.64.0.1:443"]).2
      = ["100.64.0.1:443", "10.0.0.9:80"] ∧
    (JoinHostPort "100.64.0.1" (Itoa 65535) = "100.64.0.1" ++ ":" ++ Itoa 65535 ∧
      (∀ c ∈ (Itoa 65535).data, c.isDigit = true) ∧ (decimalValue (Itoa 65535) : Int) = 65535) ∧
    JoinHostPort "100.64.0.1" (Itoa 0) = "100.64.0.1:0" ∧
    JoinHostPort "fd7a::2" (Itoa 51000) = "[" ++ "fd7a::2" ++ "]:" ++ Itoa 51000 ∧
    JoinHostPort "fd7a::2" (Itoa 51000) = "[fd7a::2]:51000" :=
  ⟨(handleLogin_oracle_once backendA ctxLive (loginFrom "10.0.0.9" 80) noData
      ["100.64.0.1:443"]).1,
    (handleLogin_oracle_once backendA ctxLive (loginFrom "10.0.0.9" 80) noData []).2.1
      "100.64.0.1" 65535 (by decide) (by decide) (by decide) (by decide),
    by decide,
    (handleLogin_oracle_once backendA ctxLive (loginFrom "10.0.0.9" 80) noData []).2.2
      "fd7a::2" 51000 (by decide),
    by decide⟩

end TailscaleAuth
